import Mathlib

/-
Verification development for the antigravity proxy health tracker and
event manager (src/modules/event-manager.js).  JavaScript numbers are
modelled as rationals, timestamps as rational milliseconds, JS objects
used as string-keyed maps as association lists, and nullable values as
Option.  JS truthiness of strings and numbers (empty string and zero are
falsy) is modelled by explicit helper functions.
-/

namespace AGProxy

/-- JS `a || b` on an optional string: null, undefined and the empty
string are falsy and fall through to the default. -/
def strOr (a : Option String) (b : String) : String :=
  match a with
  | some s => if s = "" then b else s
  | none => b

/-- JS truthiness of a nullable string: null/undefined and "" are falsy. -/
def strTruthy (o : Option String) : Bool :=
  match o with
  | some s => !(s == "")
  | none => false

/-- JS `Math.round`: rounds half away from zero toward positive infinity,
equal to the floor of x + 1/2. -/
def jsRound (q : ℚ) : ℤ := ⌊q + 1/2⌋

/-- JS `Math.min` on two numbers, written so that it evaluates in the
kernel. -/
def qmin (a b : ℚ) : ℚ := if a ≤ b then a else b

/-- JS `Math.max` on two numbers, written so that it evaluates in the
kernel. -/
def qmax (a b : ℚ) : ℚ := if a ≤ b then b else a

/-- The `{message, code}` part of a health record `lastError`
(event-manager.js lines 716-720). -/
structure LastError where
  message : String
  code : Option ℤ
  timestamp : ℚ
deriving DecidableEq

/-- A per-(account, model) health record, mirroring `initHealth`
(event-manager.js lines 638-651). -/
structure Health where
  successCount : ℕ
  failCount : ℕ
  consecutiveFailures : ℕ
  lastSuccess : Option ℚ
  lastError : Option LastError
  healthScore : ℚ
  disabled : Bool
  manualDisabled : Bool
  disabledReason : Option String
  disabledAt : Option ℚ
deriving DecidableEq

/-- Fresh health record, `initHealth` in the source. -/
def initHealth : Health :=
  { successCount := 0
    failCount := 0
    consecutiveFailures := 0
    lastSuccess := none
    lastError := none
    healthScore := 100
    disabled := false
    manualDisabled := false
    disabledReason := none
    disabledAt := none }

/-- Health score, `calculateScore` (event-manager.js lines 660-672):
base success rate minus a consecutive-failure penalty, clamped to 0..100. -/
def calculateScore (h : Health) : ℚ :=
  let total : ℚ := (h.successCount : ℚ) + (h.failCount : ℚ)
  if total = 0 then 100
  else
    let baseScore : ℚ := (h.successCount : ℚ) / total * 100
    let consecutivePenalty : ℚ := qmin ((h.consecutiveFailures : ℚ) * 6) 30
    qmax 0 (qmin 100 (baseScore - consecutivePenalty))

/-- Score formula as worded in the specification, for comparison with the
source `calculateScore`: 100 when there are no samples, otherwise
clamp(100·s/(s+f) − min(cf·6, 30), 0, 100). -/
def specScore (s f cf : ℕ) : ℚ :=
  if s + f = 0 then 100
  else qmax 0 (qmin 100 (100 * (s : ℚ) / ((s : ℚ) + (f : ℚ)) - qmin ((cf : ℚ) * 6) 30))

/-- Health configuration, mirroring `DEFAULT_CONFIG` and the keys handled
by `validateHealthConfig`.  The module merges arbitrary patch keys, so the
dashboard-only key `quotaThreshold` is carried as an optional field that
the server never validates. -/
structure HealthConfig where
  consecutiveFailureThreshold : ℚ
  warningThreshold : ℚ
  criticalThreshold : ℚ
  autoDisableEnabled : Bool
  autoRecoveryMs : ℚ
  eventMaxCount : ℚ
  eventRetentionDays : ℚ
  quotaThreshold : Option ℚ
deriving DecidableEq

/-- Default configuration values (event-manager.js lines 609-626). -/
def defaultHealthConfig : HealthConfig :=
  { consecutiveFailureThreshold := 5
    warningThreshold := 40
    criticalThreshold := 25
    autoDisableEnabled := true
    autoRecoveryMs := 24 * 60 * 60 * 1000
    eventMaxCount := 10000
    eventRetentionDays := 30
    quotaThreshold := none }

/-- A `health_change` event as emitted through
`eventManager.recordHealthChange` (lines 517-527); `trigger` and `reason`
are the detail fields the tracker fills in. -/
structure HealthEvent where
  account : String
  model : String
  change : String
  trigger : Option String
  reason : Option String
  severity : String
deriving DecidableEq

/-- Build a health-change event; severity is error for `disabled` and
info otherwise, as in `recordHealthChange`. -/
def mkHealthChange (account model change : String)
    (trigger reason : Option String) : HealthEvent :=
  { account := account
    model := model
    change := change
    trigger := trigger
    reason := reason
    severity := if change == "disabled" then "error" else "info" }

/-- Error argument of `recordResult`; `code` and `statusCode` are the
fields read when building `lastError`. -/
structure JsError where
  message : Option String
  code : Option ℤ
  statusCode : Option ℤ
deriving DecidableEq

/-- JS truthiness fallback for an optional integer (0 is falsy). -/
def intFalsy (o : Option ℤ) : Option ℤ :=
  match o with
  | some v => if v = 0 then none else some v
  | none => none

/-- JS `error?.code || error?.statusCode || null`. -/
def jsErrCode (err : Option JsError) : Option ℤ :=
  match intFalsy (err.bind JsError.code) with
  | some v => some v
  | none => intFalsy (err.bind JsError.statusCode)

/-- The `lastError` object stored on failure (lines 716-720). -/
def mkLastError (err : Option JsError) (now : ℚ) : LastError :=
  { message := strOr (err.bind JsError.message) "Unknown error"
    code := jsErrCode err
    timestamp := now }

/-- Per-record body of `recordResult` (event-manager.js lines 696-752):
update counters and timestamps, apply auto-recovery on success or
auto-disable on failure, then recompute the score.  Returns the updated
record and the emitted health-change events. -/
def recordResultCore (cfg : HealthConfig) (email m : String) (now : ℚ)
    (success : Bool) (err : Option JsError) (h : Health) :
    Health × List HealthEvent :=
  let p : Health × List HealthEvent :=
    if success then
      let h1 := { h with successCount := h.successCount + 1
                         consecutiveFailures := 0
                         lastSuccess := some now }
      if h1.disabled = true ∧ h1.manualDisabled = false then
        ({ h1 with disabled := false, disabledReason := none, disabledAt := none },
         [mkHealthChange email m "recovered" (some "successful_request") none])
      else (h1, [])
    else
      let h1 := { h with failCount := h.failCount + 1
                         consecutiveFailures := h.consecutiveFailures + 1
                         lastError := some (mkLastError err now) }
      if cfg.autoDisableEnabled = true ∧ h1.disabled = false ∧
          h1.manualDisabled = false ∧
          cfg.consecutiveFailureThreshold ≤ (h1.consecutiveFailures : ℚ) then
        let reason := "Auto: " ++ toString h1.consecutiveFailures ++ " consecutive failures"
        ({ h1 with disabled := true
                   disabledReason := some reason
                   disabledAt := some now },
         [mkHealthChange email m "disabled" none (some reason)])
      else (h1, [])
  ({ p.1 with healthScore := calculateScore p.1 }, p.2)

/-- Per-record body of `toggleModel` (lines 811-826): set
`manualDisabled`, and on enable also clear the auto-disable state. -/
def toggleModelCore (now : ℚ) (enabled : Bool) (h : Health) : Health :=
  let h1 := { h with manualDisabled := !enabled }
  if enabled then
    { h1 with disabled := false, disabledReason := none, disabledAt := none }
  else
    { h1 with disabledReason := some "Manually disabled", disabledAt := some now }

/-- Per-record body of `isModelUsable` (lines 768-791).  The source tests
`health.disabled && !health.manualDisabled && health.disabledAt`; here the
nullable `disabledAt` is matched first, which is the same condition.
Returns the usability flag, the (possibly auto-recovered) record and the
emitted events. -/
def isModelUsableCore (cfg : HealthConfig) (now : ℚ) (email m : String)
    (h : Health) : Bool × Health × List HealthEvent :=
  match h.disabledAt with
  | some t =>
    if h.disabled = true ∧ h.manualDisabled = false then
      if cfg.autoRecoveryMs < now - t then
        (true,
         { h with disabled := false
                  consecutiveFailures := 0
                  disabledReason := none
                  disabledAt := none },
         [mkHealthChange email m "recovered" (some "auto_recovery_timeout") none])
      else (!h.disabled && !h.manualDisabled, h, [])
    else (!h.disabled && !h.manualDisabled, h, [])
  | none => (!h.disabled && !h.manualDisabled, h, [])

/-- Score of a record after a structure update of `healthScore` only
depends on the counters, so the update is invisible to `calculateScore`. -/
theorem calculateScore_update (h : Health) (q : ℚ) :
    calculateScore { h with healthScore := q } = calculateScore h := rfl

/-- The record returned by `recordResultCore` carries the freshly
recomputed score of its own counters. -/
theorem recordResultCore_healthScore (cfg : HealthConfig) (email m : String)
    (now : ℚ) (success : Bool) (err : Option JsError) (h : Health) :
    (recordResultCore cfg email m now success err h).1.healthScore
      = calculateScore (recordResultCore cfg email m now success err h).1 := rfl

/-- The source score function agrees with the specification formula. -/
theorem calculateScore_eq_spec (h : Health) :
    calculateScore h = specScore h.successCount h.failCount h.consecutiveFailures := by
  have hcast : ((h.successCount : ℚ) + (h.failCount : ℚ) = 0)
      ↔ (h.successCount + h.failCount = 0) := by
    rw [← Nat.cast_add, Nat.cast_eq_zero]
  unfold calculateScore specScore
  by_cases hz : h.successCount + h.failCount = 0
  · rw [if_pos (hcast.mpr hz), if_pos hz]
  · rw [if_neg (fun c => hz (hcast.mp c)), if_neg hz]
    rw [div_mul_eq_mul_div, mul_comm]

/-- The specification score formula stays within 0..100. -/
theorem specScore_bounds (s f cf : ℕ) :
    0 ≤ specScore s f cf ∧ specScore s f cf ≤ 100 := by
  unfold specScore qmin qmax
  by_cases hz : s + f = 0
  · rw [if_pos hz]; norm_num
  · rw [if_neg hz]
    constructor <;> split_ifs <;> linarith

/-- Health records reachable from the fresh record by the tracker
operations: `recordResult`, `toggleModel`, and `resetHealth` / lazy
initialisation (both of which produce `initHealth`). -/
inductive ReachableHealth : Health → Prop where
  | init : ReachableHealth initHealth
  | step (cfg : HealthConfig) (email m : String) (now : ℚ) (success : Bool)
      (err : Option JsError) {h : Health} :
      ReachableHealth h →
      ReachableHealth (recordResultCore cfg email m now success err h).1
  | toggleStep (now : ℚ) (enabled : Bool) {h : Health} :
      ReachableHealth h → ReachableHealth (toggleModelCore now enabled h)

/-- Update of a JS object used as a string-keyed map: replace the first
binding of the key, or append a new one. -/
def hmInsert : List (String × Health) → String → Health → List (String × Health)
  | [], k, v => [(k, v)]
  | p :: rest, k, v =>
    if p.1 == k then (k, v) :: rest else p :: hmInsert rest k v

/-- An account as the tracker sees it: `email`, optional `enabled` flag,
and the lazily created `health` map. -/
structure Account where
  email : String
  enabled : Option Bool
  health : Option (List (String × Health))
deriving DecidableEq

/-- Account-level `recordResult` (lines 683-753): null account returns
null; otherwise the health map and record are created lazily and the
per-record body is applied.  Returns the updated account, the returned
record (the JS return value) and the emitted events. -/
def recordResult (cfg : HealthConfig) (now : ℚ) (acc : Option Account)
    (m : String) (success : Bool) (err : Option JsError) :
    Option Account × Option Health × List HealthEvent :=
  match acc with
  | none => (none, none, [])
  | some a =>
    let hm := a.health.getD []
    let h0 := (hm.lookup m).getD initHealth
    let r := recordResultCore cfg a.email m now success err h0
    (some { a with health := some (hmInsert hm m r.1) }, some r.1, r.2)

/-- Account-level `toggleModel` (lines 801-827). -/
def toggleModel (now : ℚ) (acc : Option Account) (m : String)
    (enabled : Bool) : Option Account × Option Health :=
  match acc with
  | none => (none, none)
  | some a =>
    let hm := a.health.getD []
    let h0 := (hm.lookup m).getD initHealth
    let h1 := toggleModelCore now enabled h0
    (some { a with health := some (hmInsert hm m h1) }, some h1)

/-- Account-level `resetHealth` (lines 837-853): null account returns
false; a truthy modelId resets that record when it exists; otherwise the
whole health map is replaced by an empty object.  Always returns true for
a present account. -/
def resetHealth (acc : Option Account) (m : Option String) :
    Option Account × Bool :=
  match acc with
  | none => (none, false)
  | some a =>
    if strTruthy m then
      let mid := m.getD ""
      match (a.health.getD []).lookup mid with
      | some _ =>
        (some { a with health := some (hmInsert (a.health.getD []) mid initHealth) }, true)
      | none => (some a, true)
    else (some { a with health := some [] }, true)

/-- Account-level `isModelUsable` (lines 763-791): no account or no
record means usable; otherwise the per-record body runs and its mutation
is written back. -/
def isModelUsable (cfg : HealthConfig) (now : ℚ) (acc : Option Account)
    (m : String) : Bool × Option Account × List HealthEvent :=
  match acc with
  | none => (true, none, [])
  | some a =>
    match a.health with
    | none => (true, some a, [])
    | some hm =>
      match hm.lookup m with
      | none => (true, some a, [])
      | some h =>
        let r := isModelUsableCore cfg now a.email m h
        (r.1, some { a with health := some (hmInsert hm m r.2.1) }, r.2.2)

/-- A cell of the health matrix (lines 899-924). -/
structure MatrixCell where
  healthScore : ℚ
  successCount : ℕ
  failCount : ℕ
  consecutiveFailures : ℕ
  disabled : Bool
  manualDisabled : Bool
  lastError : Option LastError
  lastSuccess : Option ℚ
deriving DecidableEq

/-- Matrix cell for a tracked or untracked pair.  For a tracked record the
reported `disabled` is the OR of the auto and manual flags (line 907). -/
def cellOf : Option Health → MatrixCell
  | some h =>
    { healthScore := h.healthScore
      successCount := h.successCount
      failCount := h.failCount
      consecutiveFailures := h.consecutiveFailures
      disabled := h.disabled || h.manualDisabled
      manualDisabled := h.manualDisabled
      lastError := h.lastError
      lastSuccess := h.lastSuccess }
  | none =>
    { healthScore := 100
      successCount := 0
      failCount := 0
      consecutiveFailures := 0
      disabled := false
      manualDisabled := false
      lastError := none
      lastSuccess := none }

/-- Per-account row of the health matrix. -/
structure MatrixAccount where
  email : String
  enabled : Bool
  models : List (String × MatrixCell)
deriving DecidableEq

/-- Health matrix (lines 885-931). -/
structure HealthMatrix where
  accounts : List MatrixAccount
  models : List String
  generated : ℚ
deriving DecidableEq

/-- Build the health matrix, `buildHealthMatrix` in the source. -/
def buildHealthMatrix (now : ℚ) (accounts : List Account)
    (modelIds : List String) : HealthMatrix :=
  { accounts := accounts.map (fun a =>
      { email := a.email
        enabled := !(a.enabled == some false)
        models := modelIds.map (fun mid => (mid, cellOf ((a.health.getD []).lookup mid))) })
    models := modelIds
    generated := now }

/-- A configuration patch: each field is present or absent.  Numeric
values are rationals; the integer-only checks of the validator test
integrality explicitly, as `Number.isInteger` does.  `quotaThreshold` is
the dashboard key that `setHealthConfig` merges without validating. -/
structure HealthPatch where
  consecutiveFailureThreshold : Option ℚ
  warningThreshold : Option ℚ
  criticalThreshold : Option ℚ
  autoDisableEnabled : Option Bool
  autoRecoveryMs : Option ℚ
  eventMaxCount : Option ℚ
  eventRetentionDays : Option ℚ
  quotaThreshold : Option ℚ
deriving DecidableEq

/-- The empty patch. -/
def emptyPatch : HealthPatch :=
  { consecutiveFailureThreshold := none
    warningThreshold := none
    criticalThreshold := none
    autoDisableEnabled := none
    autoRecoveryMs := none
    eventMaxCount := none
    eventRetentionDays := none
    quotaThreshold := none }

/-- A rational is a JS integer when its reduced denominator is 1. -/
def isIntegerQ (v : ℚ) : Bool := v.den == 1

def cftMsg : String := "consecutiveFailureThreshold must be a positive integer (>= 1)"
def warnMsg : String := "warningThreshold must be a number between 0 and 100"
def critMsg : String := "criticalThreshold must be a number between 0 and 100"
def relMsg : String := "warningThreshold must be greater than or equal to criticalThreshold"
def recovMsg : String := "autoRecoveryMs must be a positive number"
def boolMsg : String := "autoDisableEnabled must be a boolean"
def maxMsg : String := "eventMaxCount must be an integer between 1000 and 50000"
def retMsg : String := "eventRetentionDays must be an integer between 1 and 30"

/-- Validator clause for `consecutiveFailureThreshold` (lines 950-955). -/
def cftErrs (p : HealthPatch) : List String :=
  match p.consecutiveFailureThreshold with
  | some v => if isIntegerQ v = false ∨ v < 1 then [cftMsg] else []
  | none => []

/-- Validator clause for `warningThreshold` (lines 958-963); the
`typeof` check cannot fail in this embedding. -/
def warnErrs (p : HealthPatch) : List String :=
  match p.warningThreshold with
  | some v => if v < 0 ∨ 100 < v then [warnMsg] else []
  | none => []

/-- Validator clause for `criticalThreshold` (lines 966-971). -/
def critErrs (p : HealthPatch) : List String :=
  match p.criticalThreshold with
  | some v => if v < 0 ∨ 100 < v then [critMsg] else []
  | none => []

/-- Cross-field clause (lines 974-978): the effective warning threshold
must not be below the effective critical threshold. -/
def relErrs (cur : HealthConfig) (p : HealthPatch) : List String :=
  let warning := p.warningThreshold.getD cur.warningThreshold
  let critical := p.criticalThreshold.getD cur.criticalThreshold
  if warning < critical then [relMsg] else []

/-- Validator clause for `autoRecoveryMs` (lines 981-986). -/
def recovErrs (p : HealthPatch) : List String :=
  match p.autoRecoveryMs with
  | some v => if v ≤ 0 then [recovMsg] else []
  | none => []

/-- Validator clause for `autoDisableEnabled` (lines 989-993); a present
value is always a boolean in this embedding, so the clause never fires. -/
def boolErrs (p : HealthPatch) : List String :=
  match p.autoDisableEnabled with
  | some _ => []
  | none => []

/-- Validator clause for `eventMaxCount` (lines 996-1001). -/
def maxErrs (p : HealthPatch) : List String :=
  match p.eventMaxCount with
  | some v => if isIntegerQ v = false ∨ v < 1000 ∨ 50000 < v then [maxMsg] else []
  | none => []

/-- Validator clause for `eventRetentionDays` (lines 1004-1008). -/
def retErrs (p : HealthPatch) : List String :=
  match p.eventRetentionDays with
  | some v => if isIntegerQ v = false ∨ v < 1 ∨ 30 < v then [retMsg] else []
  | none => []

/-- `validateHealthConfig` (lines 946-1012): the error messages are
collected in source order. -/
def validateHealthConfig (cur : HealthConfig) (p : HealthPatch) : List String :=
  cftErrs p ++ warnErrs p ++ critErrs p ++ relErrs cur p ++ recovErrs p
    ++ boolErrs p ++ maxErrs p ++ retErrs p

/-- Spread of the patch over the stored configuration,
`{...healthConfig, ...newConfig}`: every key present in the patch wins,
including the unvalidated `quotaThreshold`. -/
def applyHealthPatch (cur : HealthConfig) (p : HealthPatch) : HealthConfig :=
  { consecutiveFailureThreshold := p.consecutiveFailureThreshold.getD cur.consecutiveFailureThreshold
    warningThreshold := p.warningThreshold.getD cur.warningThreshold
    criticalThreshold := p.criticalThreshold.getD cur.criticalThreshold
    autoDisableEnabled := p.autoDisableEnabled.getD cur.autoDisableEnabled
    autoRecoveryMs := p.autoRecoveryMs.getD cur.autoRecoveryMs
    eventMaxCount := p.eventMaxCount.getD cur.eventMaxCount
    eventRetentionDays := p.eventRetentionDays.getD cur.eventRetentionDays
    quotaThreshold := match p.quotaThreshold with
      | some v => some v
      | none => cur.quotaThreshold }

/-- `setHealthConfig` (lines 1019-1037): on validation failure the stored
configuration is returned untouched along with the error list, otherwise
the whole patch is merged. -/
def setHealthConfig (cur : HealthConfig) (p : HealthPatch) :
    HealthConfig × Option (List String) :=
  let errs := validateHealthConfig cur p
  if errs = [] then (applyHealthPatch cur p, none) else (cur, some errs)

/-- Structured payload of an event; `success` is the only detail field the
statistics consult, the rest of the payload is opaque to the store. -/
structure EventDetails where
  success : Option Bool
deriving DecidableEq

/-- The empty details object. -/
def noDetails : EventDetails := { success := none }

/-- A recorded event (lines 155-165). -/
structure Event where
  id : String
  timestamp : ℚ
  type : String
  requestId : Option String
  account : Option String
  model : Option String
  severity : String
  message : String
  details : EventDetails
deriving DecidableEq

/-- Caller-supplied event data before `record` fills the defaults. -/
structure EventData where
  type : Option String
  requestId : Option String
  account : Option String
  model : Option String
  severity : Option String
  message : Option String
  details : Option EventDetails
deriving DecidableEq

/-- JS `x || null` on an optional string: the empty string collapses to
null. -/
def strOrNull (o : Option String) : Option String :=
  match o with
  | some s => if s = "" then none else some s
  | none => none

/-- Build the stored event from caller data (lines 155-165), with the
source defaults for type, severity and message. -/
def buildEvent (id : String) (now : ℚ) (d : EventData) : Event :=
  { id := id
    timestamp := now
    type := strOr d.type "system"
    requestId := strOrNull d.requestId
    account := strOrNull d.account
    model := strOrNull d.model
    severity := strOr d.severity "info"
    message := d.message.getD ""
    details := d.details.getD noDetails }

/-- Options of `getStats` (lines 247-259). -/
structure StatsOptions where
  since : Option ℚ
  account : Option String
  model : Option String
deriving DecidableEq

/-- Milliseconds in 24 hours, the default statistics window. -/
def dayMs : ℚ := 24 * 60 * 60 * 1000

/-- The window filter of `getStats` (lines 248-259): events strictly
after the effective `since` (a falsy `since`, in particular 0, falls back
to 24 hours before now), optionally restricted to one account and one
model (falsy filter strings are ignored, as in the source `if` tests). -/
def statsWindow (now : ℚ) (o : StatsOptions) (evs : List Event) : List Event :=
  let since : ℚ := match o.since with
    | some s => if s = 0 then now - dayMs else s
    | none => now - dayMs
  let f1 := evs.filter (fun e => since < e.timestamp)
  let f2 := match o.account with
    | some s => if s = "" then f1 else f1.filter (fun e => e.account == some s)
    | none => f1
  match o.model with
  | some s => if s = "" then f2 else f2.filter (fun e => e.model == some s)
  | none => f2

/-- The `requests` block of the statistics (lines 304-315). -/
structure RequestsBlock where
  total : ℕ
  success : ℕ
  failed : ℕ
  successRate : ℚ
deriving DecidableEq

/-- Requests block computed over a window (lines 296-302): counts of
request events, of those with a truthy `details.success`, of those with
`details.success === false`, and the rounded success rate. -/
def requestsOf (win : List Event) : RequestsBlock :=
  let requestEvents := win.filter (fun e => e.type == "request")
  let successCount := (requestEvents.filter (fun e => e.details.success == some true)).length
  let failCount := (requestEvents.filter (fun e => e.details.success == some false)).length
  { total := requestEvents.length
    success := successCount
    failed := failCount
    successRate :=
      if 0 < requestEvents.length then
        ((jsRound ((successCount : ℚ) / (requestEvents.length : ℚ) * 1000) : ℚ)) / 10
      else 100 }

/-- The `requests` block of `getStats` over the filtered window. -/
def getStatsRequests (now : ℚ) (o : StatsOptions) (evs : List Event) :
    RequestsBlock :=
  requestsOf (statsWindow now o evs)

/-- Requests block as worded in the specification, for comparison:
`total` counts request events, `success` those with `details.success`
true, `failed` those with it false, and `successRate` is
round(success/total · 1000) / 10, or 100 when total is 0. -/
def specRequests (win : List Event) : RequestsBlock :=
  let total := (win.filter (fun e => e.type == "request")).length
  let succ := (win.filter (fun e => e.type == "request" && e.details.success == some true)).length
  let failed := (win.filter (fun e => e.type == "request" && e.details.success == some false)).length
  { total := total
    success := succ
    failed := failed
    successRate :=
      if total = 0 then 100
      else ((jsRound ((succ : ℚ) / (total : ℚ) * 1000) : ℚ)) / 10 }

/-- A frame written to one SSE subscriber. -/
inductive Frame where
  | connected (timestamp : ℚ)
  | batch (evs : List Event)
  | single (ev : Event)
deriving DecidableEq

/-- A live SSE subscriber, identified by the frames written to it so far
in write order. -/
structure Subscriber where
  frames : List Frame
deriving DecidableEq

/-- The in-memory event module state: the append-only event log and the
set of live SSE subscribers. -/
structure BrokerState where
  events : List Event
  clients : List Subscriber
deriving DecidableEq

/-- Options of `registerSSEClient` (lines 343-355). -/
structure SSEOptions where
  history : Bool
  historyLimit : Option ℕ
deriving DecidableEq

/-- JS `options.historyLimit || 100`: absent or zero falls back to 100. -/
def jsLimit (o : Option ℕ) : ℕ :=
  match o with
  | some n => if n = 0 then 100 else n
  | none => 100

/-- The last `n` elements of a list, JS `slice(-n)` for positive `n`. -/
def takeLast (n : ℕ) (l : List α) : List α := l.drop (l.length - n)

/-- `registerSSEClient` (lines 343-371): write the connected frame, then
when history is requested and the tail of the log is nonempty write it as
one batch frame, then join the live set. -/
def registerSSEClient (now : ℚ) (opts : SSEOptions) (st : BrokerState) :
    BrokerState :=
  let connectFrames := [Frame.connected now]
  let frames :=
    if opts.history then
      let historyEvents := takeLast (jsLimit opts.historyLimit) st.events
      if historyEvents = [] then connectFrames
      else connectFrames ++ [Frame.batch historyEvents]
    else connectFrames
  { st with clients := st.clients ++ [⟨frames⟩] }

/-- `record` (lines 154-188) restricted to its log and broadcast effects:
build the event, append it to the log, and fan it out to every live
subscriber as a single-event frame. -/
def recordEvent (id : String) (now : ℚ) (d : EventData) (st : BrokerState) :
    BrokerState :=
  let ev := buildEvent id now d
  { events := st.events ++ [ev]
    clients := st.clients.map (fun c => ⟨c.frames ++ [Frame.single ev]⟩) }

/-- One call to `record`, as seen by the broker. -/
structure RecordCall where
  id : String
  now : ℚ
  data : EventData
deriving DecidableEq

/-- A sequence of `record` calls, applied in order. -/
def recordMany : List RecordCall → BrokerState → BrokerState
  | [], st => st
  | c :: cs, st => recordMany cs (recordEvent c.id c.now c.data st)

/-- C1: every health record reachable by the tracker operations
(recordResult, toggleModel, resetHealth, lazy initialisation) has a
health score within 0..100 that equals the specification formula applied
to its counters; in particular the formula gives 84 at successCount 9,
failCount 1, consecutiveFailures 1. -/
theorem claim_healthScore_invariant :
    (∀ h : Health, ReachableHealth h →
      0 ≤ h.healthScore ∧ h.healthScore ≤ 100 ∧
        h.healthScore = specScore h.successCount h.failCount h.consecutiveFailures)
    ∧ specScore 9 1 1 = 84 := by
  constructor
  · intro h hr
    induction hr with
    | init => refine ⟨by norm_num [initHealth], by norm_num [initHealth], ?_⟩
              norm_num [initHealth, specScore]
    | step cfg email m now success err rh ih =>
        rw [recordResultCore_healthScore, calculateScore_eq_spec]
        exact ⟨(specScore_bounds _ _ _).1, (specScore_bounds _ _ _).2, rfl⟩
    | toggleStep now enabled rh ih =>
        cases enabled <;> simpa [toggleModelCore] using ih
  · norm_num [specScore, qmin, qmax]

/-- Record reached from fresh by n successful results. -/
def succN : ℕ → Health
  | 0 => initHealth
  | n + 1 =>
    (recordResultCore defaultHealthConfig "a@example.com" "gemini-2.5-pro"
      0 true none (succN n)).1

/-- Record reached by nine successes followed by one failure. -/
def h910 : Health :=
  (recordResultCore defaultHealthConfig "a@example.com" "gemini-2.5-pro"
    0 false none (succN 9)).1

theorem reachable_succN (n : ℕ) : ReachableHealth (succN n) := by
  induction n with
  | zero => exact ReachableHealth.init
  | succ k ih => exact ReachableHealth.step _ _ _ _ _ _ ih

theorem reachable_h910 : ReachableHealth h910 :=
  ReachableHealth.step _ _ _ _ _ _ (reachable_succN 9)

/-- Witness for C1: the record reached by nine successes and one failure
is reachable, satisfies the invariant, and its stored score is 84. -/
theorem claim_healthScore_invariant_case :
    ReachableHealth h910 ∧
    (0 ≤ h910.healthScore ∧ h910.healthScore ≤ 100 ∧
      h910.healthScore = specScore h910.successCount h910.failCount h910.consecutiveFailures) ∧
    h910.healthScore = 84 ∧ h910.successCount = 9 ∧ h910.failCount = 1 ∧
    h910.consecutiveFailures = 1 :=
  ⟨reachable_h910, claim_healthScore_invariant.1 h910 reachable_h910,
    by
      have hs : h910.successCount = 9 := by decide
      have hf : h910.failCount = 1 := by decide
      have hc : h910.consecutiveFailures = 1 := by decide
      have h1 : h910.healthScore = calculateScore h910 :=
        recordResultCore_healthScore defaultHealthConfig "a@example.com"
          "gemini-2.5-pro" 0 false none (succN 9)
      rw [h1, calculateScore_eq_spec, hs, hf, hc]
      norm_num [specScore, qmin, qmax],
    by decide, by decide, by decide⟩

/-- Iterate `recordResult` with `success = false` on a fresh record; the
i-th call happens at time `t i`.  Returns the final record and all events
emitted along the way. -/
def recordFailN (cfg : HealthConfig) (email m : String) (t : ℕ → ℚ)
    (err : Option JsError) : ℕ → Health × List HealthEvent
  | 0 => (initHealth, [])
  | k + 1 =>
    let p := recordFailN cfg email m t err k
    let q := recordResultCore cfg email m (t k) false err p.1
    (q.1, p.2 ++ q.2)

/-- Before the threshold is reached, a pure failure streak from a fresh
record has only counted failures: no success, no disable, no events. -/
theorem recordFailN_prefix (cfg : HealthConfig) (email m : String)
    (t : ℕ → ℚ) (err : Option JsError) (n : ℕ)
    (hth : cfg.consecutiveFailureThreshold = (n : ℚ)) :
    ∀ k, k < n →
      (recordFailN cfg email m t err k).1.successCount = 0 ∧
      (recordFailN cfg email m t err k).1.failCount = k ∧
      (recordFailN cfg email m t err k).1.consecutiveFailures = k ∧
      (recordFailN cfg email m t err k).1.disabled = false ∧
      (recordFailN cfg email m t err k).1.manualDisabled = false ∧
      (recordFailN cfg email m t err k).2 = [] := by
  intro k
  induction k with
  | zero => exact fun _ => ⟨rfl, rfl, rfl, rfl, rfl, rfl⟩
  | succ j ih =>
    intro hk
    obtain ⟨hs, hf, hc, hd, hm2, hev⟩ := ih (Nat.lt_of_succ_lt hk)
    have hle : (cfg.consecutiveFailureThreshold ≤ (j : ℚ) + 1) = False :=
      eq_false (by rw [hth]; exact_mod_cast Nat.not_le.mpr hk)
    simp [recordFailN, recordResultCore, hs, hf, hc, hd, hm2, hev, hle]

/-- C2: from a fresh record, with auto-disable on and an integral
threshold n ≥ 1, exactly n consecutive failing calls leave the record
disabled with reason and time stamped, and exactly one
`health_change: disabled` event was emitted for the pair. -/
theorem claim_autoDisable_streak (cfg : HealthConfig) (email m : String)
    (t : ℕ → ℚ) (err : Option JsError) (n : ℕ)
    (hauto : cfg.autoDisableEnabled = true)
    (hth : cfg.consecutiveFailureThreshold = (n : ℚ))
    (hn : 1 ≤ n) :
    (recordFailN cfg email m t err n).1.disabled = true ∧
    (recordFailN cfg email m t err n).1.disabledReason.isSome = true ∧
    (recordFailN cfg email m t err n).1.disabledAt.isSome = true ∧
    ((recordFailN cfg email m t err n).2.filter
        (fun e => e.change == "disabled" && e.account == email && e.model == m)).length = 1 := by
  obtain ⟨j, rfl⟩ : ∃ j, n = j + 1 := ⟨n - 1, by omega⟩
  obtain ⟨hs, hf, hc, hd, hm2, hev⟩ :=
    recordFailN_prefix cfg email m t err (j + 1) hth j (Nat.lt_succ_self j)
  have hle : (cfg.consecutiveFailureThreshold ≤ (j : ℚ) + 1) = True :=
    eq_true (by rw [hth]; push_cast; exact le_refl _)
  simp [recordFailN, recordResultCore, hs, hf, hc, hd, hm2, hev, hauto, hle,
    mkHealthChange]

/-- Witness for C2 under the default configuration: threshold 5, five
failing calls, exactly one disabled event. -/
theorem claim_autoDisable_streak_case :
    defaultHealthConfig.autoDisableEnabled = true ∧
    defaultHealthConfig.consecutiveFailureThreshold = ((5 : ℕ) : ℚ) ∧
    (1 : ℕ) ≤ 5 ∧
    ((recordFailN defaultHealthConfig "a@example.com" "gemini-2.5-pro"
        (fun i => (i : ℚ)) none 5).1.disabled = true ∧
      (recordFailN defaultHealthConfig "a@example.com" "gemini-2.5-pro"
        (fun i => (i : ℚ)) none 5).1.disabledReason.isSome = true ∧
      (recordFailN defaultHealthConfig "a@example.com" "gemini-2.5-pro"
        (fun i => (i : ℚ)) none 5).1.disabledAt.isSome = true ∧
      ((recordFailN defaultHealthConfig "a@example.com" "gemini-2.5-pro"
        (fun i => (i : ℚ)) none 5).2.filter
          (fun e => e.change == "disabled" && e.account == "a@example.com"
            && e.model == "gemini-2.5-pro")).length = 1) :=
  ⟨rfl, by norm_num [defaultHealthConfig], by norm_num,
    claim_autoDisable_streak defaultHealthConfig "a@example.com"
      "gemini-2.5-pro" (fun i => (i : ℚ)) none 5 rfl
      (by norm_num [defaultHealthConfig]) (by norm_num)⟩

/-- C3: a successful `recordResult` on an existing record resets
`consecutiveFailures`, never changes `manualDisabled`, leaves `disabled`
set exactly when the record was disabled and manually disabled, and emits
one `health_change: recovered` event with trigger `successful_request`
exactly when the record was disabled and not manually disabled.  In
particular `toggleModel(A,M,false)` followed by a successful
`recordResult(A,M,true)` leaves `manualDisabled` true, `isModelUsable`
false, and emits no event. -/
theorem claim_success_keeps_manualDisabled :
    (∀ (cfg : HealthConfig) (email m : String) (now : ℚ)
        (err : Option JsError) (h : Health),
      (recordResultCore cfg email m now true err h).1.consecutiveFailures = 0 ∧
      (recordResultCore cfg email m now true err h).1.manualDisabled = h.manualDisabled ∧
      (recordResultCore cfg email m now true err h).1.disabled = (h.disabled && h.manualDisabled) ∧
      (recordResultCore cfg email m now true err h).2 =
        (if h.disabled = true ∧ h.manualDisabled = false then
          [mkHealthChange email m "recovered" (some "successful_request") none]
        else []))
    ∧
    (∀ (cfg : HealthConfig) (email m : String) (now1 now2 now3 : ℚ)
        (err : Option JsError),
      let a0 : Account := { email := email, enabled := none, health := none }
      let a1 := (toggleModel now1 (some a0) m false).1
      let r := recordResult cfg now2 a1 m true err
      (r.2.1.map Health.manualDisabled = some true) ∧
      (isModelUsable cfg now3 r.1 m).1 = false ∧
      r.2.2 = []) := by
  constructor
  · intro cfg email m now err h
    cases hd : h.disabled <;> cases hmd : h.manualDisabled <;>
      simp [recordResultCore, hd, hmd]
  · intro cfg email m now1 now2 now3 err
    simp [toggleModel, toggleModelCore, recordResult, recordResultCore,
      isModelUsable, isModelUsableCore, hmInsert, initHealth, List.lookup]

/-- C4: `isModelUsable` returns true with no mutation when the account is
absent or has no record for the model; when the record is auto-disabled,
not manually disabled, and strictly more than `autoRecoveryMs` has
elapsed since `disabledAt`, it clears `disabled` and
`consecutiveFailures`, emits one recovered event with trigger
`auto_recovery_timeout` and returns true; in every other case it returns
exactly the conjunction of not disabled and not manually disabled, with
no mutation and no event. -/
theorem claim_isModelUsable_cases :
    (∀ (cfg : HealthConfig) (now : ℚ) (m : String),
      isModelUsable cfg now none m = (true, none, [])) ∧
    (∀ (cfg : HealthConfig) (now : ℚ) (a : Account) (m : String),
      (a.health.getD []).lookup m = none →
      isModelUsable cfg now (some a) m = (true, some a, [])) ∧
    (∀ (cfg : HealthConfig) (now : ℚ) (email m : String) (h : Health) (t : ℚ),
      h.disabled = true → h.manualDisabled = false → h.disabledAt = some t →
      cfg.autoRecoveryMs < now - t →
      isModelUsableCore cfg now email m h =
        (true,
         { h with disabled := false, consecutiveFailures := 0,
                  disabledReason := none, disabledAt := none },
         [mkHealthChange email m "recovered" (some "auto_recovery_timeout") none])) ∧
    (∀ (cfg : HealthConfig) (now : ℚ) (email m : String) (h : Health),
      ¬(h.disabled = true ∧ h.manualDisabled = false ∧
          ∃ t, h.disabledAt = some t ∧ cfg.autoRecoveryMs < now - t) →
      isModelUsableCore cfg now email m h =
        (!h.disabled && !h.manualDisabled, h, [])) := by
  refine ⟨fun cfg now m => rfl, ?_, ?_, ?_⟩
  · intro cfg now a m hlk
    cases ha : a.health with
    | none => simp [isModelUsable, ha]
    | some hm =>
      rw [ha] at hlk
      simp only [Option.getD_some] at hlk
      simp [isModelUsable, ha, hlk]
  · intro cfg now email m h t hd hmd hat hlt
    simp [isModelUsableCore, hat, hd, hmd, hlt]
  · intro cfg now email m h hn
    cases hat : h.disabledAt with
    | none => simp [isModelUsableCore, hat]
    | some t =>
      by_cases hdm : h.disabled = true ∧ h.manualDisabled = false
      · have hlt : ¬(cfg.autoRecoveryMs < now - t) :=
          fun hlt => hn ⟨hdm.1, hdm.2, t, hat, hlt⟩
        simp [isModelUsableCore, hat, hdm.1, hdm.2, hlt]
      · simp [isModelUsableCore, hat, hdm]

/-- Record auto-disabled at time 0 after five failures. -/
def dis0 : Health :=
  { initHealth with failCount := 5
                    consecutiveFailures := 5
                    healthScore := 0
                    disabled := true
                    disabledReason := some "Auto: 5 consecutive failures"
                    disabledAt := some 0 }

/-- Record manually disabled at time 0. -/
def manual0 : Health :=
  { initHealth with manualDisabled := true
                    disabledReason := some "Manually disabled"
                    disabledAt := some 0 }

/-- Witness for C4: absent account, expired auto-disable just past the
24-hour recovery window, and a manually disabled record. -/
theorem claim_isModelUsable_cases_case :
    isModelUsable defaultHealthConfig 0 none "gemini-2.5-pro" = (true, none, []) ∧
    isModelUsableCore defaultHealthConfig 86400001 "a@example.com" "gemini-2.5-pro" dis0 =
      (true,
       { dis0 with disabled := false, consecutiveFailures := 0,
                   disabledReason := none, disabledAt := none },
       [mkHealthChange "a@example.com" "gemini-2.5-pro" "recovered"
          (some "auto_recovery_timeout") none]) ∧
    isModelUsableCore defaultHealthConfig 0 "a@example.com" "gemini-2.5-pro" manual0 =
      (false, manual0, []) :=
  ⟨claim_isModelUsable_cases.1 defaultHealthConfig 0 "gemini-2.5-pro",
   claim_isModelUsable_cases.2.2.1 defaultHealthConfig 86400001 "a@example.com"
     "gemini-2.5-pro" dis0 0 (by decide) (by decide) (by decide)
     (by norm_num [defaultHealthConfig]),
   claim_isModelUsable_cases.2.2.2 defaultHealthConfig 0 "a@example.com"
     "gemini-2.5-pro" manual0 (fun hcon => absurd hcon.1 (by decide))⟩

/-- C9: `isModelUsable` never consults `healthScore`: any record that is
neither auto-disabled nor manually disabled is usable whatever its score
is. -/
theorem claim_usable_ignores_score :
    ∀ (cfg : HealthConfig) (now : ℚ) (email m : String) (h : Health) (q : ℚ),
      h.disabled = false → h.manualDisabled = false →
      (isModelUsableCore cfg now email m { h with healthScore := q }).1 = true := by
  intro cfg now email m h q hd hmd
  cases hat : h.disabledAt with
  | none => simp [isModelUsableCore, hat, hd, hmd]
  | some t => simp [isModelUsableCore, hat, hd, hmd]

/-- Witness for C9: a fresh record with score forced to 0, below the
default critical threshold, is still usable. -/
theorem claim_usable_ignores_score_case :
    (isModelUsableCore defaultHealthConfig 0 "a@example.com" "gemini-2.5-pro"
      { initHealth with healthScore := 0 }).1 = true ∧
    (0 : ℚ) < defaultHealthConfig.criticalThreshold :=
  ⟨claim_usable_ignores_score defaultHealthConfig 0 "a@example.com"
      "gemini-2.5-pro" initHealth 0 rfl rfl,
   by norm_num [defaultHealthConfig]⟩

/-- Looking up a key of a map built by pairing each key with a function
value yields that function value. -/
theorem lookup_map_pair {β : Type} (f : String → β) :
    ∀ (ids : List String) (m : String), m ∈ ids →
      (ids.map (fun k => (k, f k))).lookup m = some (f m) := by
  intro ids
  induction ids with
  | nil => intro m hm; cases hm
  | cons k rest ih =>
    intro m hm
    rcases eq_or_ne m k with rfl | hne
    · simp [List.lookup]
    · have hmem : m ∈ rest := by
        rcases List.mem_cons.mp hm with h | h
        · exact absurd h hne
        · exact h
      have hbe : (m == k) = false := beq_eq_false_iff_ne.mpr hne
      simp [List.lookup, hbe, ih m hmem]

/-- C10: each matrix cell built for a tracked pair reports
`disabled = record.disabled OR record.manualDisabled`, with the raw
`manualDisabled` flag reported separately in the same cell. -/
theorem claim_matrix_disabled_or_manual :
    ∀ (now : ℚ) (accs : List Account) (ids : List String) (a : Account)
      (m : String) (h : Health),
      a ∈ accs → m ∈ ids → (a.health.getD []).lookup m = some h →
      ∃ ma, ma ∈ (buildHealthMatrix now accs ids).accounts ∧ ma.email = a.email ∧
        ma.models.lookup m = some
          { healthScore := h.healthScore
            successCount := h.successCount
            failCount := h.failCount
            consecutiveFailures := h.consecutiveFailures
            disabled := h.disabled || h.manualDisabled
            manualDisabled := h.manualDisabled
            lastError := h.lastError
            lastSuccess := h.lastSuccess } := by
  intro now accs ids a m h ha hm hlk
  refine ⟨{ email := a.email
            enabled := !(a.enabled == some false)
            models := ids.map (fun mid => (mid, cellOf ((a.health.getD []).lookup mid))) },
          List.mem_map_of_mem _ ha, rfl, ?_⟩
  rw [lookup_map_pair (fun mid => cellOf ((a.health.getD []).lookup mid)) ids m hm, hlk]
  rfl

/-- Account with one manually disabled, never auto-disabled record. -/
def accM : Account :=
  { email := "a@example.com", enabled := none,
    health := some [("gemini-2.5-pro", manual0)] }

/-- Witness for C10: a manually disabled but not auto-disabled pair shows
up in the matrix with `disabled` true. -/
theorem claim_matrix_disabled_or_manual_case :
    ∃ ma, ma ∈ (buildHealthMatrix 0 [accM] ["gemini-2.5-pro"]).accounts ∧
      ma.email = "a@example.com" ∧
      ma.models.lookup "gemini-2.5-pro" = some
        { healthScore := 100
          successCount := 0
          failCount := 0
          consecutiveFailures := 0
          disabled := true
          manualDisabled := true
          lastError := none
          lastSuccess := none } :=
  claim_matrix_disabled_or_manual 0 [accM] ["gemini-2.5-pro"] accM
    "gemini-2.5-pro" manual0 (by simp) (by simp) (by decide)

/-- JS return value of a tracker write: null, a boolean, or the health
record. -/
inductive JsRet where
  | nullv
  | boolv (b : Bool)
  | healthv (h : Health)
deriving DecidableEq

/-- The JS value returned by `recordResult`. -/
def recordResultRet (cfg : HealthConfig) (now : ℚ) (acc : Option Account)
    (m : String) (success : Bool) (err : Option JsError) : JsRet :=
  match (recordResult cfg now acc m success err).2.1 with
  | none => JsRet.nullv
  | some h => JsRet.healthv h

/-- The JS value returned by `toggleModel`. -/
def toggleModelRet (now : ℚ) (acc : Option Account) (m : String)
    (enabled : Bool) : JsRet :=
  match (toggleModel now acc m enabled).2 with
  | none => JsRet.nullv
  | some h => JsRet.healthv h

/-- The JS value returned by `resetHealth`; the source returns a boolean
on every path (lines 838, 852). -/
def resetHealthRet (acc : Option Account) (m : Option String) : JsRet :=
  JsRet.boolv (resetHealth acc m).2

/-- Counterexample to C8 as stated: with an absent account,
`resetHealth` returns the boolean false, not null. -/
theorem claim_absent_account_null_cex :
    resetHealthRet none none = JsRet.boolv false ∧
    JsRet.boolv false ≠ JsRet.nullv :=
  ⟨rfl, by decide⟩

/-- C8 (amended): with an absent account all three tracker writes are
no-ops that mutate nothing; `recordResult` and `toggleModel` return null
while `resetHealth` returns false.  (The embedded operations are total
functions, reflecting that the source has no throwing path.) -/
theorem claim_absent_account_writes :
    ∀ (cfg : HealthConfig) (now : ℚ) (m : String) (success b : Bool)
      (err : Option JsError) (mid : Option String),
      recordResult cfg now none m success err = (none, none, []) ∧
      toggleModel now none m b = (none, none) ∧
      resetHealth none mid = (none, false) ∧
      isModelUsable cfg now none m = (true, none, []) ∧
      recordResultRet cfg now none m success err = JsRet.nullv ∧
      toggleModelRet now none m b = JsRet.nullv ∧
      resetHealthRet none mid = JsRet.boolv false :=
  fun _ _ _ _ _ _ _ => ⟨rfl, rfl, rfl, rfl, rfl, rfl, rfl⟩

/-- Failure condition of the `consecutiveFailureThreshold` clause. -/
def cftBad (p : HealthPatch) : Prop :=
  ∃ v, p.consecutiveFailureThreshold = some v ∧ (isIntegerQ v = false ∨ v < 1)

/-- Failure condition of the `warningThreshold` clause. -/
def warnBad (p : HealthPatch) : Prop :=
  ∃ v, p.warningThreshold = some v ∧ (v < 0 ∨ 100 < v)

/-- Failure condition of the `criticalThreshold` clause. -/
def critBad (p : HealthPatch) : Prop :=
  ∃ v, p.criticalThreshold = some v ∧ (v < 0 ∨ 100 < v)

/-- Failure condition of the cross-field clause, over effective values. -/
def relBad (cur : HealthConfig) (p : HealthPatch) : Prop :=
  p.warningThreshold.getD cur.warningThreshold <
    p.criticalThreshold.getD cur.criticalThreshold

/-- Failure condition of the `autoRecoveryMs` clause. -/
def recovBad (p : HealthPatch) : Prop :=
  ∃ v, p.autoRecoveryMs = some v ∧ v ≤ 0

/-- Failure condition of the `eventMaxCount` clause. -/
def maxBad (p : HealthPatch) : Prop :=
  ∃ v, p.eventMaxCount = some v ∧ (isIntegerQ v = false ∨ v < 1000 ∨ 50000 < v)

/-- Failure condition of the `eventRetentionDays` clause. -/
def retBad (p : HealthPatch) : Prop :=
  ∃ v, p.eventRetentionDays = some v ∧ (isIntegerQ v = false ∨ v < 1 ∨ 30 < v)

theorem mem_cftErrs (s : String) (p : HealthPatch) :
    s ∈ cftErrs p ↔ s = cftMsg ∧ cftBad p := by
  unfold cftErrs cftBad
  cases hv : p.consecutiveFailureThreshold with
  | none => simp
  | some v =>
    by_cases hc : isIntegerQ v = false ∨ v < 1 <;> simp [hc]

theorem mem_warnErrs (s : String) (p : HealthPatch) :
    s ∈ warnErrs p ↔ s = warnMsg ∧ warnBad p := by
  unfold warnErrs warnBad
  cases hv : p.warningThreshold with
  | none => simp
  | some v =>
    by_cases hc : v < 0 ∨ 100 < v <;> simp [hc]

theorem mem_critErrs (s : String) (p : HealthPatch) :
    s ∈ critErrs p ↔ s = critMsg ∧ critBad p := by
  unfold critErrs critBad
  cases hv : p.criticalThreshold with
  | none => simp
  | some v =>
    by_cases hc : v < 0 ∨ 100 < v <;> simp [hc]

theorem mem_relErrs (s : String) (cur : HealthConfig) (p : HealthPatch) :
    s ∈ relErrs cur p ↔ s = relMsg ∧ relBad cur p := by
  unfold relErrs relBad
  by_cases hc : p.warningThreshold.getD cur.warningThreshold <
      p.criticalThreshold.getD cur.criticalThreshold <;> simp [hc]

theorem mem_recovErrs (s : String) (p : HealthPatch) :
    s ∈ recovErrs p ↔ s = recovMsg ∧ recovBad p := by
  unfold recovErrs recovBad
  cases hv : p.autoRecoveryMs with
  | none => simp
  | some v =>
    by_cases hc : v ≤ 0 <;> simp [hc]

theorem mem_boolErrs (s : String) (p : HealthPatch) :
    s ∈ boolErrs p ↔ False := by
  unfold boolErrs
  cases hv : p.autoDisableEnabled <;> simp

theorem mem_maxErrs (s : String) (p : HealthPatch) :
    s ∈ maxErrs p ↔ s = maxMsg ∧ maxBad p := by
  unfold maxErrs maxBad
  cases hv : p.eventMaxCount with
  | none => simp
  | some v =>
    by_cases hc : isIntegerQ v = false ∨ v < 1000 ∨ 50000 < v <;> simp [hc]

theorem mem_retErrs (s : String) (p : HealthPatch) :
    s ∈ retErrs p ↔ s = retMsg ∧ retBad p := by
  unfold retErrs retBad
  cases hv : p.eventRetentionDays with
  | none => simp
  | some v =>
    by_cases hc : isIntegerQ v = false ∨ v < 1 ∨ 30 < v <;> simp [hc]

theorem mem_validateHealthConfig (s : String) (cur : HealthConfig)
    (p : HealthPatch) :
    s ∈ validateHealthConfig cur p ↔
      (s = cftMsg ∧ cftBad p) ∨ (s = warnMsg ∧ warnBad p) ∨
      (s = critMsg ∧ critBad p) ∨ (s = relMsg ∧ relBad cur p) ∨
      (s = recovMsg ∧ recovBad p) ∨ (s = maxMsg ∧ maxBad p) ∨
      (s = retMsg ∧ retBad p) := by
  unfold validateHealthConfig
  simp [List.mem_append, mem_cftErrs, mem_warnErrs, mem_critErrs, mem_relErrs,
    mem_recovErrs, mem_boolErrs, mem_maxErrs, mem_retErrs]

/-- C5 (amended): `setHealthConfig` is atomic over the validated fields:
when any validator clause fails, the whole patch is rejected with the
error list and the stored configuration is returned unchanged, and the
error list contains the message of a field exactly when that field fails
its range (or the cross-field relation fails); when no clause fails the
whole patch is merged.  Fields outside the validated set, such as
`quotaThreshold`, are merged without validation. -/
theorem claim_setHealthConfig_validated (cur : HealthConfig) (p : HealthPatch) :
    (validateHealthConfig cur p ≠ [] →
      setHealthConfig cur p = (cur, some (validateHealthConfig cur p))) ∧
    (validateHealthConfig cur p = [] →
      setHealthConfig cur p = (applyHealthPatch cur p, none)) ∧
    ((cftMsg ∈ validateHealthConfig cur p) ↔ cftBad p) ∧
    ((warnMsg ∈ validateHealthConfig cur p) ↔ warnBad p) ∧
    ((critMsg ∈ validateHealthConfig cur p) ↔ critBad p) ∧
    ((relMsg ∈ validateHealthConfig cur p) ↔ relBad cur p) ∧
    ((recovMsg ∈ validateHealthConfig cur p) ↔ recovBad p) ∧
    ((maxMsg ∈ validateHealthConfig cur p) ↔ maxBad p) ∧
    ((retMsg ∈ validateHealthConfig cur p) ↔ retBad p) := by
  constructor
  · intro hne; simp [setHealthConfig, hne]
  constructor
  · intro he; simp [setHealthConfig, he]
  refine ⟨?_, ?_, ?_, ?_, ?_, ?_, ?_⟩ <;>
    · rw [mem_validateHealthConfig]
      simp [cftMsg, warnMsg, critMsg, relMsg, recovMsg, maxMsg, retMsg]

/-- Patch setting only the dashboard key `quotaThreshold`, to a value
outside the documented 0.0 to 0.5 range. -/
def quotaPatch : HealthPatch := { emptyPatch with quotaThreshold := some (9/10) }

/-- Counterexample to C5 as stated: a patch whose `quotaThreshold` field
is outside its documented range is applied in full with no error, and the
stored configuration changes. -/
theorem claim_setHealthConfig_quota_cex :
    ((1 : ℚ)/2 < 9/10) ∧
    setHealthConfig defaultHealthConfig quotaPatch =
      ({ defaultHealthConfig with quotaThreshold := some (9/10) }, none) ∧
    ({ defaultHealthConfig with quotaThreshold := some (9/10) } : HealthConfig)
      ≠ defaultHealthConfig := by
  refine ⟨by norm_num, ?_, ?_⟩
  · norm_num [setHealthConfig, validateHealthConfig, cftErrs, warnErrs,
      critErrs, relErrs, recovErrs, boolErrs, maxErrs, retErrs,
      applyHealthPatch, quotaPatch, emptyPatch, defaultHealthConfig]
  · simp [defaultHealthConfig]

/-- Patch failing two validated fields at once. -/
def badPatch : HealthPatch :=
  { emptyPatch with warningThreshold := some 150, eventRetentionDays := some 0 }

/-- Witness for C5 (amended): a patch with `warningThreshold` 150 and
`eventRetentionDays` 0 is rejected with both messages and leaves the
default configuration unchanged. -/
theorem claim_setHealthConfig_validated_case :
    setHealthConfig defaultHealthConfig badPatch =
      (defaultHealthConfig, some (validateHealthConfig defaultHealthConfig badPatch)) ∧
    validateHealthConfig defaultHealthConfig badPatch = [warnMsg, retMsg] ∧
    warnMsg ∈ validateHealthConfig defaultHealthConfig badPatch ∧
    retMsg ∈ validateHealthConfig defaultHealthConfig badPatch := by
  have hv : validateHealthConfig defaultHealthConfig badPatch = [warnMsg, retMsg] := by
    norm_num [validateHealthConfig, cftErrs, warnErrs, critErrs, relErrs,
      recovErrs, boolErrs, maxErrs, retErrs, badPatch, emptyPatch,
      defaultHealthConfig]
  refine ⟨(claim_setHealthConfig_validated defaultHealthConfig badPatch).1 ?_,
    hv, ?_, ?_⟩
  · rw [hv]; simp
  · rw [hv]; simp
  · rw [hv]; simp

/-- A request event as produced by `recordRequest`: type `request`,
severity info on success and warn on failure, `details.success` set. -/
def reqEvent (id : String) (ts : ℚ) (succ : Bool) : Event :=
  { id := id
    timestamp := ts
    type := "request"
    requestId := some id
    account := some "a@example.com"
    model := some "gemini-2.5-pro"
    severity := if succ then "info" else "warn"
    message := ""
    details := { success := some succ } }

/-- The requests block of the source agrees with the specification
formula on every window. -/
theorem requestsOf_eq_spec (win : List Event) : requestsOf win = specRequests win := by
  unfold requestsOf specRequests
  simp only [List.filter_filter]
  have hs : win.filter (fun a => (a.details.success == some true) && (a.type == "request"))
      = win.filter (fun a => (a.type == "request") && (a.details.success == some true)) :=
    List.filter_congr (fun a _ => Bool.and_comm _ _)
  have hf : win.filter (fun a => (a.details.success == some false) && (a.type == "request"))
      = win.filter (fun a => (a.type == "request") && (a.details.success == some false)) :=
    List.filter_congr (fun a _ => Bool.and_comm _ _)
  rw [hs, hf]
  rcases Nat.eq_zero_or_pos
      (win.filter (fun e => e.type == "request")).length with hz | hp
  · simp [hz]
  · simp [hp, hp.ne']

/-- C6: the `requests` block of `getStats` reports, over the filtered
window, the number of request events, those with `details.success` true,
those with it false, and `round(success/total · 1000)/10` (100 when the
total is 0); three request events with two successes give rate 66.7. -/
theorem claim_stats_requests :
    (∀ (now : ℚ) (o : StatsOptions) (evs : List Event),
      getStatsRequests now o evs = specRequests (statsWindow now o evs)) ∧
    getStatsRequests 400 { since := some 1, account := none, model := none }
      [reqEvent "r1" 100 true, reqEvent "r2" 200 true, reqEvent "r3" 300 false] =
      { total := 3, success := 2, failed := 1, successRate := 667/10 } := by
  constructor
  · intro now o evs; exact requestsOf_eq_spec _
  · have hjr : jsRound ((2000 : ℚ) / 3) = 667 := by
      unfold jsRound
      rw [Int.floor_eq_iff]
      norm_num
    norm_num [getStatsRequests, statsWindow, requestsOf, reqEvent, dayMs,
      List.filter]
    rw [hjr]
    norm_num

/-- Every live subscriber receives each recorded event as one
single-event frame, appended in the order of the record calls. -/
theorem recordMany_clients (calls : List RecordCall) (st : BrokerState) :
    (recordMany calls st).clients =
      st.clients.map (fun c =>
        ⟨c.frames ++ calls.map (fun cc => Frame.single (buildEvent cc.id cc.now cc.data))⟩) := by
  induction calls generalizing st with
  | nil =>
    have hid : (fun c : Subscriber => Subscriber.mk (c.frames ++ [])) = fun c => c :=
      funext fun c => by rw [List.append_nil]
    simp only [recordMany, List.map_nil, hid]
    exact (List.map_id st.clients).symm
  | cons c cs ih =>
    simp only [recordMany, List.map_cons]
    rw [ih]
    simp only [recordEvent, List.map_map]
    refine List.map_congr_left ?_
    intro x _
    simp [Function.comp_def, List.append_assoc]

/-- C7: a new subscriber first gets the one-shot connected frame, then,
when history was requested and the log tail is nonempty, one batch frame
holding at most `historyLimit` newest events, and is then live: each
subsequent record call delivers exactly one single-event frame, in record
order. -/
theorem claim_sse_frames (now : ℚ) (opts : SSEOptions) (st : BrokerState)
    (calls : List RecordCall) :
    ∃ c : Subscriber,
      (recordMany calls (registerSSEClient now opts st)).clients.getLast? = some c ∧
      c.frames =
        [Frame.connected now]
          ++ (if opts.history = true ∧ takeLast (jsLimit opts.historyLimit) st.events ≠ [] then
                [Frame.batch (takeLast (jsLimit opts.historyLimit) st.events)]
              else [])
          ++ calls.map (fun cc => Frame.single (buildEvent cc.id cc.now cc.data)) ∧
      (takeLast (jsLimit opts.historyLimit) st.events).length ≤ jsLimit opts.historyLimit := by
  have hlen : (takeLast (jsLimit opts.historyLimit) st.events).length
      ≤ jsLimit opts.historyLimit := by
    unfold takeLast
    rw [List.length_drop]
    omega
  cases hh : opts.history with
  | false =>
    refine ⟨⟨[Frame.connected now]
        ++ calls.map (fun cc => Frame.single (buildEvent cc.id cc.now cc.data))⟩,
      ?_, by simp, hlen⟩
    rw [recordMany_clients]
    simp only [registerSSEClient, hh, Bool.false_eq_true, if_false, List.map_append,
      List.map_cons, List.map_nil]
    exact List.getLast?_concat _
  | true =>
    by_cases he : takeLast (jsLimit opts.historyLimit) st.events = []
    · refine ⟨⟨[Frame.connected now]
          ++ calls.map (fun cc => Frame.single (buildEvent cc.id cc.now cc.data))⟩,
        ?_, by simp [he], hlen⟩
      rw [recordMany_clients]
      simp only [registerSSEClient, hh, if_true, he, List.map_append,
        List.map_cons, List.map_nil]
      exact List.getLast?_concat _
    · refine ⟨⟨([Frame.connected now]
          ++ [Frame.batch (takeLast (jsLimit opts.historyLimit) st.events)])
          ++ calls.map (fun cc => Frame.single (buildEvent cc.id cc.now cc.data))⟩,
        ?_, by simp [he], hlen⟩
      rw [recordMany_clients]
      simp only [registerSSEClient, hh, if_true, he, if_false, List.map_append,
        List.map_cons, List.map_nil]
      exact List.getLast?_concat _

end AGProxy
